import Mathlib

/-!
# Dairy management core: a shallow embedding

Embedding of the dairy ledger's data model and store operations
(`models.py`, `database.py`, the kg/mound converters of
`report_generator.py` / `app.py`), with theorems checking the spec's
claims about them.

Conventions of the embedding:
* SQLite REAL values are modelled as rationals (`ℚ`).
* Calendar dates are stored as ISO-8601 strings `YYYY-MM-DD`; string
  comparison on zero-padded dates is lexicographic comparison of
  (year, month, day), so a date is modelled as that triple with the
  lexicographic order.
* `time_of_day` is a TEXT column; SQL `ORDER BY time_of_day` compares
  the strings with the BINARY collation, modelled by `String`'s order.
* The three tables are lists of rows plus the AUTOINCREMENT counters
  (SQLite assigns ids 1, 2, ...).  `SELECT ... ORDER BY` is modelled by
  a stable sort (`List.insertionSort`) of the filtered rows.
* Python truthiness of `Optional[int]` ids (`if not customer.id:`)
  is `none` or `some 0`.
-/

/-- A calendar date `YYYY-MM-DD`.  Comparisons on the stored ISO strings
coincide with lexicographic comparison of the components. -/
structure Date where
  year : Nat
  month : Nat
  day : Nat
deriving Repr, DecidableEq

/-- Strict order on dates: lexicographic on (year, month, day), which is
exactly `<` on the zero-padded ISO-8601 strings SQLite compares. -/
def Date.lt (a b : Date) : Prop :=
  a.year < b.year ∨
    (a.year = b.year ∧
      (a.month < b.month ∨ (a.month = b.month ∧ a.day < b.day)))

/-- Non-strict order on dates, `date >= ? / date <= ?` in the SQL. -/
def Date.le (a b : Date) : Prop :=
  Date.lt a b ∨ a = b

instance : DecidableRel Date.lt := fun a b => by
  unfold Date.lt; infer_instance

instance : DecidableRel Date.le := fun a b => by
  unfold Date.le; infer_instance

/-- `models.Customer`: `id` is `Optional[int]`, the other fields are text. -/
structure Customer where
  id : Option Nat
  name : String
  phone : String
  address : String
deriving Repr, DecidableEq

/-- `models.Transaction`: one milk delivery row. -/
structure Transaction where
  id : Option Nat
  customer_id : Nat
  date : Date
  milk_kg : ℚ
  milk_mound : ℚ
  rate : ℚ
  time_of_day : String
deriving Repr, DecidableEq

/-- Derived `Transaction.amount` property: `milk_kg * rate`, never stored. -/
def Transaction.amount (t : Transaction) : ℚ :=
  t.milk_kg * t.rate

/-- `models.Payment`. -/
structure Payment where
  id : Option Nat
  customer_id : Nat
  date : Date
  amount : ℚ
deriving Repr, DecidableEq

/-- `convert_kg_to_mound` (`report_generator.py` and `app.py`):
1 mound = 40 kg. -/
def convert_kg_to_mound (kg_value : ℚ) : ℚ :=
  kg_value / 40

/-- `convert_mound_to_kg` (`report_generator.py` and `app.py`). -/
def convert_mound_to_kg (mound_value : ℚ) : ℚ :=
  mound_value * 40

/-- The SQLite database state: the three tables plus the AUTOINCREMENT
counters (next id to be assigned; SQLite starts at 1). -/
structure DairyDatabase where
  customers : List Customer
  transactions : List Transaction
  payments : List Payment
  next_customer_id : Nat
  next_transaction_id : Nat
  next_payment_id : Nat
deriving Repr, DecidableEq

/-- A freshly initialized database: empty tables, ids start at 1. -/
def DairyDatabase.empty : DairyDatabase :=
  ⟨[], [], [], 1, 1, 1⟩

/-- `add_customer`: INSERT the row, return `lastrowid`. No validation of
any field is performed. -/
def add_customer (db : DairyDatabase) (customer : Customer) :
    Nat × DairyDatabase :=
  let customer_id := db.next_customer_id
  (customer_id,
    { db with
        customers := db.customers ++ [{ customer with id := some customer_id }]
        next_customer_id := customer_id + 1 })

/-- `get_customer`: SELECT by id, `None` when no row matches. -/
def get_customer (db : DairyDatabase) (customer_id : Nat) : Option Customer :=
  db.customers.find? (fun c => c.id == some customer_id)

/-- Lexicographic comparison of two lists of characters by code point:
the order SQLite's BINARY collation gives to (ASCII) TEXT values. -/
def charListLe : List Char → List Char → Bool
  | [], _ => true
  | _ :: _, [] => false
  | a :: as, b :: bs =>
    if a.toNat < b.toNat then true
    else if b.toNat < a.toNat then false
    else charListLe as bs

/-- BINARY-collation `<=` on strings. -/
def strLe (s t : String) : Bool :=
  charListLe s.data t.data

/-- Row order used by `SELECT * FROM customers ORDER BY name`. -/
def customerOrder (a b : Customer) : Prop :=
  strLe a.name b.name = true

instance : DecidableRel customerOrder := fun a b => by
  unfold customerOrder; infer_instance

/-- `get_all_customers`: all rows ordered by name. -/
def get_all_customers (db : DairyDatabase) : List Customer :=
  List.insertionSort customerOrder db.customers

/-- `update_customer`: guarded by Python truthiness of the id
(`if not customer.id: return False`), then an UPDATE of the mutable
fields by id; success is `rowcount > 0`. -/
def update_customer (db : DairyDatabase) (customer : Customer) :
    Bool × DairyDatabase :=
  if customer.id.getD 0 == 0 then
    (false, db)
  else
    (db.customers.any (fun r => r.id == customer.id),
      { db with
          customers := db.customers.map (fun r =>
            if r.id == customer.id then
              { r with
                  name := customer.name
                  phone := customer.phone
                  address := customer.address }
            else r) })

/-- `delete_customer`: refuse (and change nothing) when any transaction
or payment references the customer; otherwise DELETE by id and report
`rowcount > 0`. -/
def delete_customer (db : DairyDatabase) (customer_id : Nat) :
    Bool × DairyDatabase :=
  let transaction_count :=
    db.transactions.countP (fun t => t.customer_id == customer_id)
  let payment_count :=
    db.payments.countP (fun p => p.customer_id == customer_id)
  if transaction_count > 0 || payment_count > 0 then
    (false, db)
  else
    let remaining := db.customers.filter (fun c => !(c.id == some customer_id))
    (remaining.length < db.customers.length,
      { db with customers := remaining })

/-- `add_transaction`: INSERT the row, return `lastrowid`. -/
def add_transaction (db : DairyDatabase) (transaction : Transaction) :
    Nat × DairyDatabase :=
  let transaction_id := db.next_transaction_id
  (transaction_id,
    { db with
        transactions :=
          db.transactions ++ [{ transaction with id := some transaction_id }]
        next_transaction_id := transaction_id + 1 })

/-- `get_transaction`: SELECT by id. -/
def get_transaction (db : DairyDatabase) (transaction_id : Nat) :
    Option Transaction :=
  db.transactions.find? (fun t => t.id == some transaction_id)

/-- The WHERE clause of `get_customer_transactions` (and of the
transaction query of `get_customer_summary` when both bounds are
present): `customer_id = ?`, plus `date >= ?` / `date <= ?` for each
bound that was supplied (`if start_date:` — `None` is falsy). -/
def txMatches (customer_id : Nat) (start_date end_date : Option Date)
    (t : Transaction) : Bool :=
  t.customer_id == customer_id
    && (match start_date with
        | none => true
        | some s => decide (Date.le s t.date))
    && (match end_date with
        | none => true
        | some e => decide (Date.le t.date e))

/-- Row order of `ORDER BY date, time_of_day`: by date, ties broken by
the BINARY (lexicographic) order on the `time_of_day` strings. -/
def txOrder (t u : Transaction) : Prop :=
  Date.lt t.date u.date ∨
    (t.date = u.date ∧ strLe t.time_of_day u.time_of_day = true)

instance : DecidableRel txOrder := fun t u => by
  unfold txOrder; infer_instance

/-- `get_customer_transactions`: WHERE then `ORDER BY date, time_of_day`
(a stable sort of the filtered rows). -/
def get_customer_transactions (db : DairyDatabase) (customer_id : Nat)
    (start_date end_date : Option Date) : List Transaction :=
  List.insertionSort txOrder
    (db.transactions.filter (txMatches customer_id start_date end_date))

/-- `update_transaction`: same shape as `update_customer`. -/
def update_transaction (db : DairyDatabase) (transaction : Transaction) :
    Bool × DairyDatabase :=
  if transaction.id.getD 0 == 0 then
    (false, db)
  else
    (db.transactions.any (fun r => r.id == transaction.id),
      { db with
          transactions := db.transactions.map (fun r =>
            if r.id == transaction.id then
              { transaction with id := r.id }
            else r) })

/-- `delete_transaction`: unconditional DELETE by id. -/
def delete_transaction (db : DairyDatabase) (transaction_id : Nat) :
    Bool × DairyDatabase :=
  let remaining :=
    db.transactions.filter (fun t => !(t.id == some transaction_id))
  (remaining.length < db.transactions.length,
    { db with transactions := remaining })

/-- `add_payment`: INSERT the row, return `lastrowid`. -/
def add_payment (db : DairyDatabase) (payment : Payment) :
    Nat × DairyDatabase :=
  let payment_id := db.next_payment_id
  (payment_id,
    { db with
        payments := db.payments ++ [{ payment with id := some payment_id }]
        next_payment_id := payment_id + 1 })

/-- `get_payment`: SELECT by id. -/
def get_payment (db : DairyDatabase) (payment_id : Nat) : Option Payment :=
  db.payments.find? (fun p => p.id == some payment_id)

/-- The WHERE clause of `get_customer_payments` (and of the payment query
of `get_customer_summary`). -/
def payMatches (customer_id : Nat) (start_date end_date : Option Date)
    (p : Payment) : Bool :=
  p.customer_id == customer_id
    && (match start_date with
        | none => true
        | some s => decide (Date.le s p.date))
    && (match end_date with
        | none => true
        | some e => decide (Date.le p.date e))

/-- Row order of `ORDER BY date` on payments. -/
def payOrder (p q : Payment) : Prop :=
  Date.le p.date q.date

instance : DecidableRel payOrder := fun p q => by
  unfold payOrder; infer_instance

/-- `get_customer_payments`: WHERE then `ORDER BY date`. -/
def get_customer_payments (db : DairyDatabase) (customer_id : Nat)
    (start_date end_date : Option Date) : List Payment :=
  List.insertionSort payOrder
    (db.payments.filter (payMatches customer_id start_date end_date))

/-- `update_payment`: same shape as `update_customer`. -/
def update_payment (db : DairyDatabase) (payment : Payment) :
    Bool × DairyDatabase :=
  if payment.id.getD 0 == 0 then
    (false, db)
  else
    (db.payments.any (fun r => r.id == payment.id),
      { db with
          payments := db.payments.map (fun r =>
            if r.id == payment.id then
              { payment with id := r.id }
            else r) })

/-- `delete_payment`: unconditional DELETE by id. -/
def delete_payment (db : DairyDatabase) (payment_id : Nat) :
    Bool × DairyDatabase :=
  let remaining := db.payments.filter (fun p => !(p.id == some payment_id))
  (remaining.length < db.payments.length,
    { db with payments := remaining })

/-- The dictionary returned by `get_customer_summary`. -/
structure Summary where
  total_milk_kg : ℚ
  total_milk_mound : ℚ
  total_amount : ℚ
  rent : ℚ
  mandi_average : ℚ
  commission : ℚ
  net_amount : ℚ
  total_paid : ℚ
  remaining_amount : ℚ
deriving Repr, DecidableEq

/-- `get_customer_summary`: two aggregate queries over the inclusive
range (`SUM` of an empty set is NULL, turned into 0 by `or 0`; a fold
over the empty list is 0 directly), then the deduction arithmetic. -/
def get_customer_summary (db : DairyDatabase) (customer_id : Nat)
    (start_date end_date : Date) : Summary :=
  let ts := db.transactions.filter
    (txMatches customer_id (some start_date) (some end_date))
  let ps := db.payments.filter
    (payMatches customer_id (some start_date) (some end_date))
  let total_milk_kg := (ts.map Transaction.milk_kg).sum
  let total_milk_mound := (ts.map Transaction.milk_mound).sum
  let total_amount := (ts.map (fun t => t.milk_kg * t.rate)).sum
  let total_paid := (ps.map Payment.amount).sum
  let rent := total_milk_kg * (0.05 : ℚ)
  let mandi_average := total_milk_kg * (0.02 : ℚ)
  let commission := total_milk_kg * (0.03 : ℚ)
  let net_amount := total_amount - (rent + mandi_average + commission)
  let remaining_amount := net_amount - total_paid
  { total_milk_kg := total_milk_kg
    total_milk_mound := total_milk_mound
    total_amount := total_amount
    rent := rent
    mandi_average := mandi_average
    commission := commission
    net_amount := net_amount
    total_paid := total_paid
    remaining_amount := remaining_amount }

/-! ## Order lemmas: the sort relations are total and transitive -/

/-- Head characterisation of the character-list comparison. -/
theorem charListLe_cons (a b : Char) (as bs : List Char) :
    charListLe (a :: as) (b :: bs) = true ↔
      (a.toNat < b.toNat ∨ (a.toNat = b.toNat ∧ charListLe as bs = true)) := by
  simp only [charListLe]
  split_ifs with h1 h2
  · simp [h1]
  · simp only [Bool.false_eq_true, false_iff]
    rintro (h | ⟨h, _⟩) <;> omega
  · have hab : a.toNat = b.toNat := by omega
    simp [hab]

theorem charListLe_total : ∀ xs ys : List Char,
    charListLe xs ys = true ∨ charListLe ys xs = true := by
  intro xs
  induction xs with
  | nil => intro ys; left; cases ys <;> rfl
  | cons a as ih =>
    intro ys
    cases ys with
    | nil => right; rfl
    | cons b bs =>
      rcases ih bs with h | h
      · rcases Nat.lt_trichotomy a.toNat b.toNat with hl | he | hg
        · exact Or.inl ((charListLe_cons ..).mpr (Or.inl hl))
        · exact Or.inl ((charListLe_cons ..).mpr (Or.inr ⟨he, h⟩))
        · exact Or.inr ((charListLe_cons ..).mpr (Or.inl hg))
      · rcases Nat.lt_trichotomy a.toNat b.toNat with hl | he | hg
        · exact Or.inl ((charListLe_cons ..).mpr (Or.inl hl))
        · exact Or.inr ((charListLe_cons ..).mpr (Or.inr ⟨he.symm, h⟩))
        · exact Or.inr ((charListLe_cons ..).mpr (Or.inl hg))

theorem charListLe_trans : ∀ xs ys zs : List Char,
    charListLe xs ys = true → charListLe ys zs = true →
      charListLe xs zs = true := by
  intro xs
  induction xs with
  | nil => intro ys zs _ _; cases zs <;> rfl
  | cons a as ih =>
    intro ys zs h1 h2
    cases ys with
    | nil => simp [charListLe] at h1
    | cons b bs =>
      cases zs with
      | nil => simp [charListLe] at h2
      | cons c cs =>
        rcases (charListLe_cons ..).mp h1 with hab | ⟨hab, hab'⟩ <;>
          rcases (charListLe_cons ..).mp h2 with hbc | ⟨hbc, hbc'⟩
        · exact (charListLe_cons ..).mpr (Or.inl (by omega))
        · exact (charListLe_cons ..).mpr (Or.inl (by omega))
        · exact (charListLe_cons ..).mpr (Or.inl (by omega))
        · exact (charListLe_cons ..).mpr (Or.inr ⟨by omega, ih bs cs hab' hbc'⟩)

theorem strLe_total (s t : String) : strLe s t = true ∨ strLe t s = true :=
  charListLe_total s.data t.data

theorem strLe_trans {s t u : String} (h1 : strLe s t = true)
    (h2 : strLe t u = true) : strLe s u = true :=
  charListLe_trans s.data t.data u.data h1 h2

theorem Date.lt_trans' {a b c : Date} (h1 : Date.lt a b) (h2 : Date.lt b c) :
    Date.lt a c := by
  obtain ⟨y1, m1, d1⟩ := a
  obtain ⟨y2, m2, d2⟩ := b
  obtain ⟨y3, m3, d3⟩ := c
  simp only [Date.lt] at h1 h2 ⊢
  omega

theorem Date.lt_connex (a b : Date) : Date.lt a b ∨ a = b ∨ Date.lt b a := by
  obtain ⟨y1, m1, d1⟩ := a
  obtain ⟨y2, m2, d2⟩ := b
  simp only [Date.lt, Date.mk.injEq]
  omega

theorem Date.le_trans' {a b c : Date} (h1 : Date.le a b) (h2 : Date.le b c) :
    Date.le a c := by
  rcases h1 with h1 | rfl
  · rcases h2 with h2 | rfl
    · exact Or.inl (Date.lt_trans' h1 h2)
    · exact Or.inl h1
  · exact h2

theorem Date.le_total' (a b : Date) : Date.le a b ∨ Date.le b a := by
  rcases Date.lt_connex a b with h | rfl | h
  · exact Or.inl (Or.inl h)
  · exact Or.inl (Or.inr rfl)
  · exact Or.inr (Or.inl h)

instance : IsTotal Transaction txOrder :=
  ⟨fun t u => by
    unfold txOrder
    rcases Date.lt_connex t.date u.date with h | h | h
    · exact Or.inl (Or.inl h)
    · rcases strLe_total t.time_of_day u.time_of_day with hs | hs
      · exact Or.inl (Or.inr ⟨h, hs⟩)
      · exact Or.inr (Or.inr ⟨h.symm, hs⟩)
    · exact Or.inr (Or.inl h)⟩

instance : IsTrans Transaction txOrder :=
  ⟨fun a b c hab hbc => by
    unfold txOrder at hab hbc ⊢
    rcases hab with h1 | ⟨e1, s1⟩
    · rcases hbc with h2 | ⟨e2, s2⟩
      · exact Or.inl (Date.lt_trans' h1 h2)
      · exact Or.inl (e2 ▸ h1)
    · rcases hbc with h2 | ⟨e2, s2⟩
      · exact Or.inl (by rw [e1]; exact h2)
      · exact Or.inr ⟨e1.trans e2, strLe_trans s1 s2⟩⟩

instance : IsTotal Payment payOrder :=
  ⟨fun p q => Date.le_total' p.date q.date⟩

instance : IsTrans Payment payOrder :=
  ⟨fun _ _ _ h1 h2 => Date.le_trans' h1 h2⟩

/-! ## General lemmas about the store operations -/

theorem mem_get_customer_transactions {db : DairyDatabase} {cid : Nat}
    {sd ed : Option Date} {t : Transaction} :
    t ∈ get_customer_transactions db cid sd ed ↔
      t ∈ db.transactions ∧ txMatches cid sd ed t = true := by
  unfold get_customer_transactions
  rw [List.mem_insertionSort txOrder]
  exact List.mem_filter

theorem mem_get_customer_payments {db : DairyDatabase} {cid : Nat}
    {sd ed : Option Date} {p : Payment} :
    p ∈ get_customer_payments db cid sd ed ↔
      p ∈ db.payments ∧ payMatches cid sd ed p = true := by
  unfold get_customer_payments
  rw [List.mem_insertionSort payOrder]
  exact List.mem_filter

/-! ## The claims -/

/-- The store of the spec's "Ali" scenario, built through the store API:
customer "Ali", Transaction(10 kg at 80, 2024-06-01, Morning),
Transaction(5 kg at 80, 2024-06-01, Evening), Payment(500, 2024-06-02). -/
def aliStore : DairyDatabase :=
  (add_payment
    (add_transaction
      (add_transaction
        (add_customer DairyDatabase.empty ⟨none, "Ali", "", ""⟩).2
        ⟨none, 1, ⟨2024, 6, 1⟩, 10, convert_kg_to_mound 10, 80, "Morning"⟩).2
      ⟨none, 1, ⟨2024, 6, 1⟩, 5, convert_kg_to_mound 5, 80, "Evening"⟩).2
    ⟨none, 1, ⟨2024, 6, 2⟩, 500⟩).2

/-- The summary the code computes for the Ali scenario over
2024-06-01 .. 2024-06-30. -/
def aliSummary : Summary :=
  get_customer_summary aliStore 1 ⟨2024, 6, 1⟩ ⟨2024, 6, 30⟩

/-- C1: the claimed values net_amount = 1198.10 and
remaining_amount = 698.10 are false on the code: with deductions
rent + mandi_average + commission = 1.50, the code returns
net_amount = 1198.50 and remaining_amount = 698.50. -/
theorem C1_counterexample :
    aliSummary.net_amount ≠ (1198.10 : ℚ) ∧
      aliSummary.remaining_amount ≠ (698.10 : ℚ) := by
  constructor <;>
    norm_num [aliSummary, aliStore, get_customer_summary, txMatches,
      payMatches, Date.le, Date.lt, add_customer, add_transaction,
      add_payment, DairyDatabase.empty, convert_kg_to_mound, Payment.amount,
      List.filter, List.sum]

/-- C1 (amended): the Ali scenario summary has total_milk_kg = 15,
total_amount = 1200, rent = 0.75, mandi_average = 0.3,
commission = 0.45, net_amount = 1198.50, total_paid = 500 and
remaining_amount = 698.50. -/
theorem C1_summary :
    aliSummary.total_milk_kg = 15 ∧
      aliSummary.total_amount = 1200 ∧
      aliSummary.rent = (0.75 : ℚ) ∧
      aliSummary.mandi_average = (0.3 : ℚ) ∧
      aliSummary.commission = (0.45 : ℚ) ∧
      aliSummary.net_amount = (1198.50 : ℚ) ∧
      aliSummary.total_paid = 500 ∧
      aliSummary.remaining_amount = (698.50 : ℚ) := by
  refine ⟨?_, ?_, ?_, ?_, ?_, ?_, ?_, ?_⟩ <;>
    norm_num [aliSummary, aliStore, get_customer_summary, txMatches,
      payMatches, Date.le, Date.lt, add_customer, add_transaction,
      add_payment, DairyDatabase.empty, convert_kg_to_mound, Payment.amount,
      List.filter, List.sum]

/-- A store with two same-day transactions for customer 1, the Evening
one inserted before the Morning one. -/
def eveningFirstStore : DairyDatabase :=
  (add_transaction
    (add_transaction
      (add_customer DairyDatabase.empty ⟨none, "Ali", "", ""⟩).2
      ⟨none, 1, ⟨2024, 6, 1⟩, 5, convert_kg_to_mound 5, 80, "Evening"⟩).2
    ⟨none, 1, ⟨2024, 6, 1⟩, 10, convert_kg_to_mound 10, 80, "Morning"⟩).2

/-- C2: the claim that Morning entries are returned before Evening
entries on the same date is false on the code: `ORDER BY time_of_day`
compares the TEXT values, and "Evening" < "Morning" lexicographically,
so the Evening row comes first. -/
theorem C2_counterexample :
    (get_customer_transactions eveningFirstStore 1 none none).map
        Transaction.time_of_day = ["Evening", "Morning"] ∧
      ("Evening" : String) ≠ "Morning" := by
  constructor <;> decide

/-- C2 (amended): for every customer and date range the transaction list
returned by `get_customer_transactions` is ordered by date ascending
and, within the same date, by the lexicographic order on the
time_of_day strings — so Evening entries come before Morning entries. -/
theorem C2_ordering (db : DairyDatabase) (cid : Nat)
    (sd ed : Option Date) :
    List.Sorted txOrder (get_customer_transactions db cid sd ed) :=
  List.sorted_insertionSort txOrder _

/-- C3: deleting a customer that is referenced by at least one
transaction or payment returns false and leaves the whole store
unchanged. -/
theorem C3_delete_refused (db : DairyDatabase) (cid : Nat)
    (h : (∃ t ∈ db.transactions, t.customer_id = cid) ∨
      (∃ p ∈ db.payments, p.customer_id = cid)) :
    delete_customer db cid = (false, db) := by
  unfold delete_customer
  rcases h with ⟨t, ht, hcid⟩ | ⟨p, hp, hcid⟩
  · have hpos : 0 < db.transactions.countP (fun t => t.customer_id == cid) :=
      List.countP_pos_iff.mpr ⟨t, ht, by simp [hcid]⟩
    simp [hpos]
  · have hpos : 0 < db.payments.countP (fun p => p.customer_id == cid) :=
      List.countP_pos_iff.mpr ⟨p, hp, by simp [hcid]⟩
    simp [hpos]

/-- A store whose only customer is referenced by a transaction. -/
def referencedStore : DairyDatabase :=
  { customers := [⟨some 1, "Ali", "", ""⟩]
    transactions := [⟨some 1, 1, ⟨2024, 6, 1⟩, 10, 1/4, 80, "Morning"⟩]
    payments := []
    next_customer_id := 2
    next_transaction_id := 2
    next_payment_id := 1 }

/-- C3 witness: the refusal theorem applied to a concrete store. -/
theorem C3_witness :
    delete_customer referencedStore 1 = (false, referencedStore) :=
  C3_delete_refused referencedStore 1
    (Or.inl ⟨⟨some 1, 1, ⟨2024, 6, 1⟩, 10, 1/4, 80, "Morning"⟩,
      List.mem_cons_self .., rfl⟩)

/-- The all-zero summary returned for an empty matching set. -/
def zeroSummary : Summary :=
  ⟨0, 0, 0, 0, 0, 0, 0, 0, 0⟩

/-- C4: when no transaction and no payment of the customer matches the
range (in particular whenever start_date > end_date), the summary is
computed without error and every total is zero. -/
theorem C4_empty_summary (db : DairyDatabase) (cid : Nat) (s e : Date)
    (ht : db.transactions.filter (txMatches cid (some s) (some e)) = [])
    (hp : db.payments.filter (payMatches cid (some s) (some e)) = []) :
    get_customer_summary db cid s e = zeroSummary := by
  unfold get_customer_summary zeroSummary
  rw [ht, hp]
  norm_num

/-- C4 witness: a store with data strictly outside an inverted range
(start 2024-07-01 > end 2024-06-05) yields the all-zero summary. -/
theorem C4_witness :
    get_customer_summary referencedStore 1 ⟨2024, 7, 1⟩ ⟨2024, 6, 5⟩ =
      zeroSummary :=
  C4_empty_summary referencedStore 1 ⟨2024, 7, 1⟩ ⟨2024, 6, 5⟩ rfl rfl

/-- C5: the date filters of the transaction and payment queries are
inclusive on each bound that is supplied and unbounded on each bound
that is omitted. -/
theorem C5_inclusive_range (db : DairyDatabase) (cid : Nat) (s e : Date)
    (t : Transaction) (p : Payment) :
    (t ∈ get_customer_transactions db cid (some s) (some e) ↔
      t ∈ db.transactions ∧ t.customer_id = cid ∧
        Date.le s t.date ∧ Date.le t.date e) ∧
    (t ∈ get_customer_transactions db cid none (some e) ↔
      t ∈ db.transactions ∧ t.customer_id = cid ∧ Date.le t.date e) ∧
    (t ∈ get_customer_transactions db cid (some s) none ↔
      t ∈ db.transactions ∧ t.customer_id = cid ∧ Date.le s t.date) ∧
    (t ∈ get_customer_transactions db cid none none ↔
      t ∈ db.transactions ∧ t.customer_id = cid) ∧
    (p ∈ get_customer_payments db cid (some s) (some e) ↔
      p ∈ db.payments ∧ p.customer_id = cid ∧
        Date.le s p.date ∧ Date.le p.date e) ∧
    (p ∈ get_customer_payments db cid none (some e) ↔
      p ∈ db.payments ∧ p.customer_id = cid ∧ Date.le p.date e) ∧
    (p ∈ get_customer_payments db cid (some s) none ↔
      p ∈ db.payments ∧ p.customer_id = cid ∧ Date.le s p.date) ∧
    (p ∈ get_customer_payments db cid none none ↔
      p ∈ db.payments ∧ p.customer_id = cid) := by
  refine ⟨?_, ?_, ?_, ?_, ?_, ?_, ?_, ?_⟩ <;>
    simp [mem_get_customer_transactions, mem_get_customer_payments,
      txMatches, payMatches, and_assoc]

/-- C6: converting kilograms to mound (divide by 40) and back
(multiply by 40) is the identity on exact rational arithmetic. -/
theorem C6_roundtrip (kg : ℚ) :
    convert_mound_to_kg (convert_kg_to_mound kg) = kg := by
  unfold convert_kg_to_mound convert_mound_to_kg
  exact div_mul_cancel₀ kg (by norm_num)

/-- C7: the claim that `add_customer` fails with a `ValidationError`
when the name is absent is false on the code: with an empty name the
insert succeeds, an id is returned and the row is stored. -/
theorem C7_counterexample :
    (add_customer DairyDatabase.empty ⟨none, "", "", ""⟩).1 = 1 ∧
      (add_customer DairyDatabase.empty ⟨none, "", "", ""⟩).2.customers =
        [⟨some 1, "", "", ""⟩] := by
  constructor <;> rfl

/-- C7 (amended): `add_customer` performs no validation: even for a
customer whose required name field is empty, it returns the next id and
appends the row to the customers table. -/
theorem C7_no_validation (db : DairyDatabase) (phone address : String) :
    (add_customer db ⟨none, "", phone, address⟩).1 = db.next_customer_id ∧
      (⟨some db.next_customer_id, "", phone, address⟩ : Customer) ∈
        (add_customer db ⟨none, "", phone, address⟩).2.customers := by
  constructor
  · rfl
  · unfold add_customer
    simp

/-- A store whose only customer (id 1) has no transactions and no
payments. -/
def soloStore : DairyDatabase :=
  { customers := [⟨some 1, "Solo", "", ""⟩]
    transactions := []
    payments := []
    next_customer_id := 2
    next_transaction_id := 1
    next_payment_id := 1 }

/-- C8: deleting a customer that exists and is referenced by no
transaction and no payment returns true, and a subsequent
`get_customer` for that id reports not-found. -/
theorem C8_delete_succeeds (db : DairyDatabase) (cid : Nat)
    (hc : ∃ c ∈ db.customers, c.id = some cid)
    (ht : ∀ t ∈ db.transactions, t.customer_id ≠ cid)
    (hp : ∀ p ∈ db.payments, p.customer_id ≠ cid) :
    (delete_customer db cid).1 = true ∧
      get_customer (delete_customer db cid).2 cid = none := by
  obtain ⟨c, hcm, hcid⟩ := hc
  have hcT : db.transactions.countP (fun t => t.customer_id == cid) = 0 := by
    rw [List.countP_eq_zero]
    intro t htm
    simpa using ht t htm
  have hcP : db.payments.countP (fun p => p.customer_id == cid) = 0 := by
    rw [List.countP_eq_zero]
    intro p hpm
    simpa using hp p hpm
  unfold delete_customer
  rw [hcT, hcP]
  simp only [Nat.lt_irrefl, decide_False, Bool.or_self, Bool.false_eq_true,
    if_false]
  constructor
  · simp only [decide_eq_true_eq]
    exact List.length_filter_lt_length_iff_exists.mpr ⟨c, hcm, by simp [hcid]⟩
  · unfold get_customer
    rw [List.find?_eq_none]
    intro x hx
    have := (List.mem_filter.mp hx).2
    simpa using this

/-- C8 witness: the deletion theorem applied to a concrete store with
one unreferenced customer. -/
theorem C8_witness :
    (delete_customer soloStore 1).1 = true ∧
      get_customer (delete_customer soloStore 1).2 1 = none :=
  C8_delete_succeeds soloStore 1
    ⟨⟨some 1, "Solo", "", ""⟩, List.mem_cons_self .., rfl⟩
    (fun t htm => absurd htm (List.not_mem_nil t))
    (fun p hpm => absurd hpm (List.not_mem_nil p))

/-- C9: an update whose record has an unset id returns false without
touching the store, for each of the three entity kinds. -/
theorem C9_update_unset_id (db : DairyDatabase) (c : Customer)
    (t : Transaction) (p : Payment)
    (hc : c.id = none) (ht : t.id = none) (hp : p.id = none) :
    update_customer db c = (false, db) ∧
      update_transaction db t = (false, db) ∧
      update_payment db p = (false, db) := by
  refine ⟨?_, ?_, ?_⟩ <;>
    simp [update_customer, update_transaction, update_payment, hc, ht, hp]

/-- C9 witness: the unset-id theorem applied to concrete records over a
concrete store. -/
theorem C9_witness :
    update_customer soloStore ⟨none, "X", "", ""⟩ = (false, soloStore) ∧
      update_transaction soloStore
          ⟨none, 1, ⟨2024, 6, 1⟩, 10, 1/4, 80, "Morning"⟩ =
        (false, soloStore) ∧
      update_payment soloStore ⟨none, 1, ⟨2024, 6, 2⟩, 500⟩ =
        (false, soloStore) :=
  C9_update_unset_id soloStore ⟨none, "X", "", ""⟩
    ⟨none, 1, ⟨2024, 6, 1⟩, 10, 1/4, 80, "Morning"⟩
    ⟨none, 1, ⟨2024, 6, 2⟩, 500⟩ rfl rfl rfl

/-- Every customer row in the store has an id below the AUTOINCREMENT
counter — the invariant the real database maintains. -/
def customerIdsLtNext (db : DairyDatabase) : Prop :=
  ∀ c ∈ db.customers, ∀ i, c.id = some i → i < db.next_customer_id

/-- C10: `add_customer` validates nothing: inserting a customer whose
name is the empty string succeeds, returns a fresh id, and a subsequent
`get_customer` for that id returns the stored record with its empty
name. -/
theorem C10_empty_name_roundtrip (db : DairyDatabase)
    (hwf : customerIdsLtNext db) :
    (add_customer db ⟨none, "", "", ""⟩).1 = db.next_customer_id ∧
      (∀ c ∈ db.customers, c.id ≠ some db.next_customer_id) ∧
      get_customer (add_customer db ⟨none, "", "", ""⟩).2
          db.next_customer_id =
        some ⟨some db.next_customer_id, "", "", ""⟩ := by
  have hfresh : ∀ c ∈ db.customers, c.id ≠ some db.next_customer_id := by
    intro c hcm heq
    exact absurd (hwf c hcm _ heq) (lt_irrefl _)
  refine ⟨rfl, hfresh, ?_⟩
  unfold add_customer get_customer
  rw [List.find?_append]
  have hnone :
      db.customers.find? (fun c => c.id == some db.next_customer_id) =
        none := by
    rw [List.find?_eq_none]
    intro x hx
    simpa using hfresh x hx
  rw [hnone]
  simp [List.find?]

/-- C10 witness: the empty-name round trip on the freshly initialized
store. -/
theorem C10_witness :
    (add_customer DairyDatabase.empty ⟨none, "", "", ""⟩).1 = 1 ∧
      (∀ c ∈ DairyDatabase.empty.customers, c.id ≠ some 1) ∧
      get_customer (add_customer DairyDatabase.empty ⟨none, "", "", ""⟩).2 1 =
        some ⟨some 1, "", "", ""⟩ :=
  C10_empty_name_roundtrip DairyDatabase.empty
    (fun c hcm => absurd hcm (List.not_mem_nil c))
